import Mathlib

/-!
Verification of `eGRF.py`: a CKD-EPI eGFR calculator (`calculate_egfr`)
and a kidney-disease stage-chart renderer
(`plot_kidney_disease_stages_with_correct_format`).

Embedding conventions:
* Python floats are embedded as real numbers.  The float `**` operator is
  embedded as `powf`, which follows CPython's `float.__pow__` exactly:
  a positive base gives the real power (`Real.rpow`); base `0.0` with a
  negative exponent raises `ZeroDivisionError`; base `0.0` with a
  non-negative exponent gives the real power (`0.0 ** 0.0 = 1.0`,
  `0.0 ** positive = 0.0`); a negative base gives the principal-branch
  complex power (`Complex.cpow`, i.e. `exp(y * log x)` with
  `log x = log |x| + iπ`), which is what Python 3 returns for a negative
  float base (a float when the exponent is integral — the principal value
  then has imaginary part zero — and a complex number otherwise).
  Results therefore live in `ℂ`; on every positive-base path they are
  real numbers coerced into `ℂ`.
* `raise` is embedded as `Except.error`, with `PyErr` distinguishing the
  `ValueError` of the sex validation from the `ZeroDivisionError` of
  `0.0 ** negative`.
* The renderer draws onto matplotlib's implicit global canvas; it is
  embedded as the list of drawing commands issued, in program order,
  paired with a success flag (`false` exactly when the Python code
  raises).  Commands issued before a raise stay in the list, because in
  the source they have already mutated the global canvas.  The renderer
  computes no powers, so its only error is the sex `ValueError`.
-/

namespace EGRF

open Real

open scoped Classical

/-- Python's `str.lower()` as used on the `sex` and `race` arguments
(`eGRF.py` lines 13, 17, 24, 72, 76, 83): ASCII case folding applied to
each character. -/
def lower (s : String) : String := ⟨s.data.map Char.toLower⟩

/-- The `stages` list of `eGRF.py` lines 40-47. -/
def stages : List String :=
  ["Stage 5: Kidney Failure",
   "Stage 4: Severe Reduction",
   "Stage 3b: Moderate-to-Severe Reduction",
   "Stage 3a: Mild-to-Moderate Reduction",
   "Stage 2: Mild Reduction",
   "Stage 1: Normal or High Function"]

/-- The `thresholds` list of `eGRF.py` line 48 (Python ints). -/
def thresholds : List ℕ := [0, 15, 30, 45, 60, 90, 120]

/-- The `colors` list of `eGRF.py` line 49. -/
def colors : List String := ["darkred", "red", "orange", "yellow", "lime", "green"]

/-- The band table built by the loop of `eGRF.py` lines 52-60: for each
`i < len(thresholds) - 1` one horizontal bar with label `stages[i]`,
spanning from `thresholds[i]` (the `left` keyword) to
`thresholds[i] + (thresholds[i+1] - thresholds[i]) = thresholds[i+1]`,
in color `colors[i]`.  Stored as (label, lower bound, upper bound, color). -/
def stage_bands : List (String × ℕ × ℕ × String) :=
  (List.range (thresholds.length - 1)).map fun i =>
    (stages.getD i "", thresholds.getD i 0, thresholds.getD (i + 1) 0, colors.getD i "")

/-- The four formula constants (k, coeff, alpha, race_factor) exactly as
computed inside `calculate_egfr` (`eGRF.py` lines 13-24); `none` embeds
the `raise ValueError` of line 22. -/
noncomputable def egfr_constants (creatinine : ℝ) (sex race : String) :
    Option (ℝ × ℝ × ℝ × ℝ) :=
  if lower sex = "male" then
    let k : ℝ := 0.9
    let alpha : ℝ := if creatinine ≤ k then -0.411 else -1.209
    let coeff : ℝ := 141
    let race_factor : ℝ := if lower race = "african-american" then 1.159 else 1.0
    some (k, coeff, alpha, race_factor)
  else if lower sex = "female" then
    let k : ℝ := 0.7
    let alpha : ℝ := if creatinine ≤ k then -0.329 else -1.209
    let coeff : ℝ := 144
    let race_factor : ℝ := if lower race = "african-american" then 1.159 else 1.0
    some (k, coeff, alpha, race_factor)
  else none

/-- The four formula constants (k, coeff, alpha, race_factor) exactly as
recomputed inside the renderer (`eGRF.py` lines 72-83); `none` embeds the
`raise ValueError` of line 81.  The source assigns `k, coeff, alpha` in a
different statement order than `calculate_egfr` does, which is preserved
here. -/
noncomputable def renderer_constants (creatinine : ℝ) (sex race : String) :
    Option (ℝ × ℝ × ℝ × ℝ) :=
  if lower sex = "male" then
    let k : ℝ := 0.9
    let coeff : ℝ := 141
    let alpha : ℝ := if creatinine ≤ k then -0.411 else -1.209
    let race_factor : ℝ := if lower race = "african-american" then 1.159 else 1.0
    some (k, coeff, alpha, race_factor)
  else if lower sex = "female" then
    let k : ℝ := 0.7
    let coeff : ℝ := 144
    let alpha : ℝ := if creatinine ≤ k then -0.329 else -1.209
    let race_factor : ℝ := if lower race = "african-american" then 1.159 else 1.0
    some (k, coeff, alpha, race_factor)
  else none

/-- The two Python exceptions the estimator can raise: the explicit
`ValueError` of line 22 and the `ZeroDivisionError` of `0.0 ** negative`
at line 26. -/
inductive PyErr where
  | valueError
  | zeroDivisionError
deriving DecidableEq

/-- CPython's `float.__pow__ x y`:
* `x > 0`: the real power `x ^ y` (`Real.rpow`);
* `x = 0`, `y < 0`: raises `ZeroDivisionError`;
* `x = 0`, `y ≥ 0`: the real power (`0 ** 0 = 1`, `0 ** positive = 0`);
* `x < 0`: the principal-branch complex power `exp(y * log x)`
  (`Complex.cpow`) — a complex number for non-integral `y`, the real
  value `±|x| ^ y` (imaginary part zero) for integral `y`, exactly as the
  Python `**` operator behaves on a negative float base. -/
noncomputable def powf (x y : ℝ) : Except PyErr ℂ :=
  if 0 < x then .ok ((x ^ y : ℝ) : ℂ)
  else if x = 0 then
    if y < 0 then .error .zeroDivisionError else .ok ((x ^ y : ℝ) : ℂ)
  else .ok ((x : ℂ) ^ (y : ℂ))

/-- `calculate_egfr` (`eGRF.py` lines 3-28).  In Python `race` defaults to
"non-african-american"; the default is made explicit at every call site
here.  The first `match` embeds the `if/elif/else` of lines 13-22 with
the `raise ValueError` of line 22 as `Except.error .valueError`; line 26
is `coeff * (creatinine / k) ** alpha * (0.993 ** age) * race_factor`,
where each `**` is `powf` (so `creatinine = 0` raises `ZeroDivisionError`
— alpha is always negative — and `creatinine < 0` yields a complex
value), and errors propagate exactly as Python exceptions do. -/
noncomputable def calculate_egfr (creatinine age : ℝ) (sex race : String) :
    Except PyErr ℂ :=
  match (if lower sex = "male" then
      Except.ok (0.9, (if creatinine ≤ 0.9 then (-0.411 : ℝ) else -1.209), (141 : ℝ))
    else if lower sex = "female" then
      Except.ok (0.7, (if creatinine ≤ 0.7 then (-0.329 : ℝ) else -1.209), (144 : ℝ))
    else .error .valueError : Except PyErr (ℝ × ℝ × ℝ)) with
  | .error e => .error e
  | .ok (k, alpha, coeff) =>
    let race_factor : ℝ := if lower race = "african-american" then 1.159 else 1.0
    match powf (creatinine / k) alpha with
    | .error e => .error e
    | .ok p =>
      match powf 0.993 age with
      | .error e => .error e
      | .ok q => .ok ((coeff : ℂ) * p * q * (race_factor : ℂ))

/-- One drawing command issued to the matplotlib global canvas by the
renderer.  String contents produced by f-string formatting are abstracted
to the numeric values being formatted. -/
inductive PlotCmd where
  | barh (label : String) (width lft : ℕ) (color edgecolor : String) (opacity : ℝ)
  | axvline (x : ℝ) (color linestyle : String)
  | text (x y value : ℝ) (color : String) (fontsize : ℕ)
  | figtextFormula (x y coeff creatinine k alpha age race_factor : ℝ)
  | figtextConstants (x y coeff creatinine k alpha age race_factor : ℝ) (sex : String)
  | title (s : String)
  | xlabel (s : String)
  | ylabel (s : String)
  | legend
  | grid (axis linestyle : String) (opacity : ℝ)
  | tight_layout
  | showFig

/-- `plot_kidney_disease_stages_with_correct_format` (`eGRF.py` lines
30-112), embedded as the list of drawing commands issued, in program
order, paired with `true` on success and `false` when line 81 raises
`ValueError`.  The source draws the six bands (lines 52-60), the vertical
marker (line 63) and the annotation (lines 66-69) BEFORE the sex
validation of lines 72-81, so those commands are emitted even on the
failing path.  The renderer computes no powers (the formula at line 97 is
only an f-string), so the sex `ValueError` is its only error. -/
noncomputable def plot_kidney_disease_stages_with_correct_format
    (egfr creatinine age : ℝ) (sex race : String) : List PlotCmd × Bool :=
  let bars : List PlotCmd := stage_bands.map fun b =>
    .barh b.1 (b.2.2.1 - b.2.1) b.2.1 b.2.2.2 "black" 0.7
  let marker : PlotCmd := .axvline egfr "blue" "--"
  let annot : PlotCmd := .text (egfr + 1) ((stages.length : ℝ) - 1) egfr "blue" 10
  let drawn : List PlotCmd := bars ++ [marker, annot]
  match renderer_constants creatinine sex race with
  | none => (drawn, false)
  | some (k, coeff, alpha, race_factor) =>
      (drawn ++
        [.figtextFormula 0.5 0.001 coeff creatinine k alpha age race_factor,
         .figtextConstants 0.02 0 coeff creatinine k alpha age race_factor sex,
         .title "Kidney Disease Stages Based on eGFR",
         .xlabel "eGFR (mL/min/1.73m²)",
         .ylabel "Kidney Disease Stages",
         .legend,
         .grid "x" "--" 0.5,
         .tight_layout,
         .showFig], true)

/-! ### Helper lemmas -/

lemma lower_male : lower "male" = "male" := by decide

lemma lower_female : lower "female" = "female" := by decide

lemma lower_aa : lower "african-american" = "african-american" := by decide

lemma lower_naa : lower "non-african-american" = "non-african-american" := by decide

/-- Unfolding `calculate_egfr` on positive creatinine and a sex argument
that lowercases to "male": the result is the real CKD-EPI formula value. -/
lemma calculate_egfr_male_pos (creatinine age : ℝ) (sex race : String)
    (hc : 0 < creatinine) (h : lower sex = "male") :
    calculate_egfr creatinine age sex race =
      .ok (((141 * (creatinine / 0.9) ^ (if creatinine ≤ 0.9 then (-0.411 : ℝ) else -1.209) *
        (0.993 : ℝ) ^ age *
        (if lower race = "african-american" then (1.159 : ℝ) else 1.0) : ℝ) : ℂ)) := by
  have hb : (0 : ℝ) < creatinine / 0.9 := by positivity
  have h993 : (0 : ℝ) < 0.993 := by norm_num
  simp [calculate_egfr, h, powf, hb, h993]
  split_ifs <;> push_cast <;> ring

/-- Unfolding `calculate_egfr` on positive creatinine and a sex argument
that lowercases to "female". -/
lemma calculate_egfr_female_pos (creatinine age : ℝ) (sex race : String)
    (hc : 0 < creatinine) (h : lower sex = "female") :
    calculate_egfr creatinine age sex race =
      .ok (((144 * (creatinine / 0.7) ^ (if creatinine ≤ 0.7 then (-0.329 : ℝ) else -1.209) *
        (0.993 : ℝ) ^ age *
        (if lower race = "african-american" then (1.159 : ℝ) else 1.0) : ℝ) : ℂ)) := by
  have hm : lower sex ≠ "male" := by rw [h]; decide
  have hb : (0 : ℝ) < creatinine / 0.7 := by positivity
  have h993 : (0 : ℝ) < 0.993 := by norm_num
  simp [calculate_egfr, h, hm, powf, hb, h993]
  split_ifs <;> push_cast <;> ring

/-- At creatinine 0 and a valid sex, `calculate_egfr` raises
`ZeroDivisionError`: line 26 evaluates `0.0 ** alpha` with alpha negative
(−0.411 or −0.329, since the `creatinine ≤ k` branch is taken). -/
lemma calculate_egfr_zero (age : ℝ) (sex race : String)
    (hv : lower sex = "male" ∨ lower sex = "female") :
    calculate_egfr 0 age sex race = .error .zeroDivisionError := by
  rcases hv with h | h
  · norm_num [calculate_egfr, h, powf]
  · have hm : lower sex ≠ "male" := by rw [h]; decide
    norm_num [calculate_egfr, h, hm, powf,
      (show ("female" : String) ≠ "male" by decide)]

/-- At negative creatinine and male sex, `calculate_egfr` returns the
principal-branch complex power value (no error): the base
`creatinine / 0.9` is negative and alpha is −0.411 (the
`creatinine ≤ 0.9` branch). -/
lemma calculate_egfr_neg_male (creatinine age : ℝ) (sex race : String)
    (hc : creatinine < 0) (h : lower sex = "male") :
    calculate_egfr creatinine age sex race =
      .ok ((141 : ℂ) * ((creatinine / 0.9 : ℝ) : ℂ) ^ ((-0.411 : ℝ) : ℂ) *
        (((0.993 : ℝ) ^ age : ℝ) : ℂ) *
        (((if lower race = "african-american" then (1.159 : ℝ) else 1.0) : ℝ) : ℂ)) := by
  have hb : creatinine / 0.9 < 0 := div_neg_of_neg_of_pos hc (by norm_num)
  have halpha : creatinine ≤ 0.9 := by linarith
  have h993 : (0 : ℝ) < 0.993 := by norm_num
  simp [calculate_egfr, h, powf, not_lt.mpr hb.le, hb.ne, halpha, h993]

/-- At negative creatinine and female sex, `calculate_egfr` returns the
principal-branch complex power value (no error). -/
lemma calculate_egfr_neg_female (creatinine age : ℝ) (sex race : String)
    (hc : creatinine < 0) (h : lower sex = "female") :
    calculate_egfr creatinine age sex race =
      .ok ((144 : ℂ) * ((creatinine / 0.7 : ℝ) : ℂ) ^ ((-0.329 : ℝ) : ℂ) *
        (((0.993 : ℝ) ^ age : ℝ) : ℂ) *
        (((if lower race = "african-american" then (1.159 : ℝ) else 1.0) : ℝ) : ℂ)) := by
  have hm : lower sex ≠ "male" := by rw [h]; decide
  have hb : creatinine / 0.7 < 0 := div_neg_of_neg_of_pos hc (by norm_num)
  have halpha : creatinine ≤ 0.7 := by linarith
  have h993 : (0 : ℝ) < 0.993 := by norm_num
  simp [calculate_egfr, h, hm, powf, not_lt.mpr hb.le, hb.ne, halpha, h993]

/-- `calculate_egfr` raises `ValueError` on a sex that is neither male
nor female after lowercasing (the power is never reached). -/
lemma calculate_egfr_invalid (creatinine age : ℝ) (sex race : String)
    (h1 : lower sex ≠ "male") (h2 : lower sex ≠ "female") :
    calculate_egfr creatinine age sex race = .error .valueError := by
  simp [calculate_egfr, h1, h2]

/-- On a valid sex and nonzero creatinine, `calculate_egfr` succeeds
(positive creatinine gives a real value, negative a complex one). -/
lemma calculate_egfr_ok_of_ne_zero (creatinine age : ℝ) (sex race : String)
    (hv : lower sex = "male" ∨ lower sex = "female") (hc : creatinine ≠ 0) :
    ∃ z : ℂ, calculate_egfr creatinine age sex race = .ok z := by
  rcases hc.lt_or_lt with hneg | hpos
  · rcases hv with h | h
    · exact ⟨_, calculate_egfr_neg_male creatinine age sex race hneg h⟩
    · exact ⟨_, calculate_egfr_neg_female creatinine age sex race hneg h⟩
  · rcases hv with h | h
    · exact ⟨_, calculate_egfr_male_pos creatinine age sex race hpos h⟩
    · exact ⟨_, calculate_egfr_female_pos creatinine age sex race hpos h⟩

/-- An unrecognized race string silently yields race_factor 1.0 in the
constants of `calculate_egfr` (lines 13-24). -/
lemma egfr_constants_race_fallback (creatinine : ℝ) (sex race : String)
    (hr : lower race ≠ "african-american") :
    ∀ t ∈ egfr_constants creatinine sex race, t.2.2.2 = 1.0 := by
  intro t ht
  by_cases h1 : lower sex = "male"
  · simp [egfr_constants, h1, hr] at ht
    rw [← ht]
  · by_cases h2 : lower sex = "female"
    · simp [egfr_constants, h1, h2, hr] at ht
      rw [← ht]
    · simp [egfr_constants, h1, h2] at ht

/-- `renderer_constants` fails exactly on a sex that is neither male nor
female after lowercasing. -/
lemma renderer_constants_invalid (creatinine : ℝ) (sex race : String)
    (h1 : lower sex ≠ "male") (h2 : lower sex ≠ "female") :
    renderer_constants creatinine sex race = none := by
  simp [renderer_constants, h1, h2]

/-- On an invalid sex the renderer fails, but only after emitting the six
band bars, the vertical marker and the annotation (`eGRF.py` lines 52-69
run before the validation at lines 72-81). -/
lemma plot_invalid_sex (egfr creatinine age : ℝ) (sex race : String)
    (h1 : lower sex ≠ "male") (h2 : lower sex ≠ "female") :
    plot_kidney_disease_stages_with_correct_format egfr creatinine age sex race =
      ((stage_bands.map fun b =>
          PlotCmd.barh b.1 (b.2.2.1 - b.2.1) b.2.1 b.2.2.2 "black" 0.7) ++
        [PlotCmd.axvline egfr "blue" "--",
         PlotCmd.text (egfr + 1) ((stages.length : ℝ) - 1) egfr "blue" 10],
       false) := by
  simp only [plot_kidney_disease_stages_with_correct_format,
    renderer_constants_invalid creatinine sex race h1 h2]

/-- On a valid sex the renderer succeeds. -/
lemma plot_valid_sex (egfr creatinine age : ℝ) (sex race : String)
    (h : lower sex = "male" ∨ lower sex = "female") :
    (plot_kidney_disease_stages_with_correct_format egfr creatinine age sex race).2
      = true := by
  rcases h with h | h
  · have hc : renderer_constants creatinine sex race =
        some (0.9, 141, (if creatinine ≤ 0.9 then (-0.411 : ℝ) else -1.209),
          (if lower race = "african-american" then (1.159 : ℝ) else 1.0)) := by
      simp [renderer_constants, h]
    simp [plot_kidney_disease_stages_with_correct_format, hc]
  · have hm : lower sex ≠ "male" := by rw [h]; decide
    have hc : renderer_constants creatinine sex race =
        some (0.7, 144, (if creatinine ≤ 0.7 then (-0.329 : ℝ) else -1.209),
          (if lower race = "african-american" then (1.159 : ℝ) else 1.0)) := by
      simp [renderer_constants, h, hm]
    simp [plot_kidney_disease_stages_with_correct_format, hc]

/-! ### Claim theorems -/

/-- C1 counterexample: at creatinine 0 (with valid sex "male") the source
does not return the formula value — line 26 evaluates `0.0 ** -0.411`,
which raises `ZeroDivisionError`, so no value is returned at all. -/
theorem egfr_formula_counterexample :
    calculate_egfr 0 45 "male" "non-african-american" =
      .error PyErr.zeroDivisionError ∧
    ∀ z : ℂ, calculate_egfr 0 45 "male" "non-african-american" ≠ .ok z := by
  have h := calculate_egfr_zero 45 "male" "non-african-american" (Or.inl lower_male)
  exact ⟨h, fun z hz => by rw [h] at hz; exact Except.noConfusion hz⟩

/-- C1 (amended): for every sex string equal (case-insensitively) to
"male" or "female": for creatinine > 0, `calculate_egfr` returns the real
value `coeff * (creatinine / k) ^ alpha * 0.993 ^ age * race_factor`,
where for male k = 0.9, coeff = 141, alpha = −0.411 if creatinine ≤ k
else −1.209; for female k = 0.7, coeff = 144, alpha = −0.329 if
creatinine ≤ k else −1.209; and race_factor = 1.159 if race is
case-insensitively "african-american" else 1.0 — with no clamping or
rounding.  At creatinine = 0 it instead raises `ZeroDivisionError`
(`0.0 ** negative`), and at creatinine < 0 it returns the complex
principal-branch value of the same formula (with alpha from the ≤ branch). -/
theorem egfr_formula (creatinine age : ℝ) (sex race : String) :
    (0 < creatinine → lower sex = "male" →
      calculate_egfr creatinine age sex race =
        .ok (((141 * (creatinine / 0.9) ^ (if creatinine ≤ 0.9 then (-0.411 : ℝ) else -1.209) *
          (0.993 : ℝ) ^ age *
          (if lower race = "african-american" then (1.159 : ℝ) else 1.0) : ℝ) : ℂ))) ∧
    (0 < creatinine → lower sex = "female" →
      calculate_egfr creatinine age sex race =
        .ok (((144 * (creatinine / 0.7) ^ (if creatinine ≤ 0.7 then (-0.329 : ℝ) else -1.209) *
          (0.993 : ℝ) ^ age *
          (if lower race = "african-american" then (1.159 : ℝ) else 1.0) : ℝ) : ℂ))) ∧
    (creatinine = 0 → (lower sex = "male" ∨ lower sex = "female") →
      calculate_egfr creatinine age sex race = .error PyErr.zeroDivisionError) ∧
    (creatinine < 0 → lower sex = "male" →
      calculate_egfr creatinine age sex race =
        .ok ((141 : ℂ) * ((creatinine / 0.9 : ℝ) : ℂ) ^ ((-0.411 : ℝ) : ℂ) *
          (((0.993 : ℝ) ^ age : ℝ) : ℂ) *
          (((if lower race = "african-american" then (1.159 : ℝ) else 1.0) : ℝ) : ℂ))) ∧
    (creatinine < 0 → lower sex = "female" →
      calculate_egfr creatinine age sex race =
        .ok ((144 : ℂ) * ((creatinine / 0.7 : ℝ) : ℂ) ^ ((-0.329 : ℝ) : ℂ) *
          (((0.993 : ℝ) ^ age : ℝ) : ℂ) *
          (((if lower race = "african-american" then (1.159 : ℝ) else 1.0) : ℝ) : ℂ))) :=
  ⟨fun hc h => calculate_egfr_male_pos creatinine age sex race hc h,
   fun hc h => calculate_egfr_female_pos creatinine age sex race hc h,
   fun hc hv => by subst hc; exact calculate_egfr_zero age sex race hv,
   fun hc h => calculate_egfr_neg_male creatinine age sex race hc h,
   fun hc h => calculate_egfr_neg_female creatinine age sex race hc h⟩

/-- Witness for C1: the spec's worked example (1.45, 45, "MALE"), the
zero-creatinine error at ("FEMALE", african-american), and a negative
creatinine complex value. -/
theorem egfr_formula_witness :
    calculate_egfr 1.45 45 "MALE" "non-african-american" =
      .ok (((141 * ((1.45 : ℝ) / 0.9) ^ (if (1.45 : ℝ) ≤ 0.9 then (-0.411 : ℝ) else -1.209) *
        (0.993 : ℝ) ^ (45 : ℝ) *
        (if lower "non-african-american" = "african-american" then (1.159 : ℝ) else 1.0) :
          ℝ) : ℂ)) ∧
    calculate_egfr 0 20 "FEMALE" "african-american" = .error PyErr.zeroDivisionError ∧
    calculate_egfr (-1) 30 "FEMALE" "african-american" =
      .ok ((144 : ℂ) * (((-1 : ℝ) / 0.7 : ℝ) : ℂ) ^ ((-0.329 : ℝ) : ℂ) *
        (((0.993 : ℝ) ^ (30 : ℝ) : ℝ) : ℂ) *
        (((if lower "african-american" = "african-american" then (1.159 : ℝ) else 1.0) :
          ℝ) : ℂ)) :=
  ⟨(egfr_formula 1.45 45 "MALE" "non-african-american").1 (by norm_num) (by decide),
   (egfr_formula 0 20 "FEMALE" "african-american").2.2.1 rfl (Or.inr (by decide)),
   (egfr_formula (-1) 30 "FEMALE" "african-american").2.2.2.2 (by norm_num) (by decide)⟩

/-- C6: `calculate_egfr` is invariant under changing the letter case of
the sex argument: any sex string lowercasing to "male" gives the same
result as the literal "male", and likewise for "female" — for every
creatinine, age and race (the sex argument is only ever read through
`.lower()`). -/
theorem egfr_sex_case_insensitive (creatinine age : ℝ) (sex race : String) :
    (lower sex = "male" →
      calculate_egfr creatinine age sex race = calculate_egfr creatinine age "male" race) ∧
    (lower sex = "female" →
      calculate_egfr creatinine age sex race = calculate_egfr creatinine age "female" race) := by
  constructor <;> intro h
  · simp only [calculate_egfr, h, lower_male]
  · simp only [calculate_egfr, h, lower_female]

/-- Witness for C6 at sex "MALE" and at sex "FeMaLe". -/
theorem egfr_sex_case_insensitive_witness :
    calculate_egfr 1.0 30 "MALE" "non-african-american" =
      calculate_egfr 1.0 30 "male" "non-african-american" ∧
    calculate_egfr 1.0 30 "FeMaLe" "non-african-american" =
      calculate_egfr 1.0 30 "female" "non-african-american" :=
  ⟨(egfr_sex_case_insensitive 1.0 30 "MALE" "non-african-american").1 (by decide),
   (egfr_sex_case_insensitive 1.0 30 "FeMaLe" "non-african-american").2 (by decide)⟩

/-- C5: for every fixed creatinine, age, and valid sex, `calculate_egfr`
with race "african-american" equals `calculate_egfr` with race
"non-african-american" multiplied by 1.159 — including the failure paths
(creatinine 0 fails identically on both races) and the complex-valued
negative-creatinine path. -/
theorem egfr_race_factor_ratio (creatinine age : ℝ) (sex : String)
    (hsex : lower sex = "male" ∨ lower sex = "female") :
    calculate_egfr creatinine age sex "african-american" =
      (calculate_egfr creatinine age sex "non-african-american").map
        (fun z => z * 1.159) := by
  have e1 : (if lower "african-american" = "african-american" then (1.159 : ℝ) else 1.0)
      = 1.159 := by rw [lower_aa, if_pos rfl]
  have e2 : (if lower "non-african-american" = "african-american" then (1.159 : ℝ) else 1.0)
      = 1.0 := if_neg (by decide)
  have c1 : ((1.159 : ℝ) : ℂ) = (1.159 : ℂ) := by norm_num
  have c2 : ((1.0 : ℝ) : ℂ) = (1 : ℂ) := by norm_num
  rcases lt_trichotomy creatinine 0 with hneg | hzero | hpos
  · rcases hsex with h | h
    · rw [calculate_egfr_neg_male creatinine age sex "african-american" hneg h,
        calculate_egfr_neg_male creatinine age sex "non-african-american" hneg h, e1, e2]
      simp only [Except.map, c1, c2]
      congr 1
      ring
    · rw [calculate_egfr_neg_female creatinine age sex "african-american" hneg h,
        calculate_egfr_neg_female creatinine age sex "non-african-american" hneg h, e1, e2]
      simp only [Except.map, c1, c2]
      congr 1
      ring
  · subst hzero
    rw [calculate_egfr_zero age sex "african-american" hsex,
      calculate_egfr_zero age sex "non-african-american" hsex]
    rfl
  · rcases hsex with h | h
    · rw [calculate_egfr_male_pos creatinine age sex "african-american" hpos h,
        calculate_egfr_male_pos creatinine age sex "non-african-american" hpos h, e1, e2]
      simp only [Except.map]
      congr 1
      push_cast
      norm_num
    · rw [calculate_egfr_female_pos creatinine age sex "african-american" hpos h,
        calculate_egfr_female_pos creatinine age sex "non-african-american" hpos h, e1, e2]
      simp only [Except.map]
      congr 1
      push_cast
      norm_num

/-- Witness for C5 at creatinine 1.2, age 50, sex "female". -/
theorem egfr_race_factor_ratio_witness :
    calculate_egfr 1.2 50 "female" "african-american" =
      (calculate_egfr 1.2 50 "female" "non-african-american").map
        (fun z => z * 1.159) :=
  egfr_race_factor_ratio 1.2 50 "female" (Or.inr (by decide))

/-- C3: for every creatinine > 0, age ≥ 0, sex in {"male", "female"} and
race in {"african-american", "non-african-american"}, `calculate_egfr`
succeeds and returns a strictly positive real number (real numbers are
finite by construction, so positivity is the whole content here). -/
theorem egfr_positive (creatinine age : ℝ) (sex race : String)
    (hc : 0 < creatinine) (ha : 0 ≤ age)
    (hsex : sex = "male" ∨ sex = "female")
    (hrace : race = "african-american" ∨ race = "non-african-american") :
    ∃ x : ℝ, calculate_egfr creatinine age sex race = .ok (x : ℂ) ∧ 0 < x := by
  have hrf : 0 < (if lower race = "african-american" then (1.159 : ℝ) else 1.0) := by
    split_ifs <;> norm_num
  have hQ : (0 : ℝ) < (0.993 : ℝ) ^ age := rpow_pos_of_pos (by norm_num) age
  rcases hsex with h | h <;> subst h
  · refine ⟨_, calculate_egfr_male_pos creatinine age "male" race hc lower_male, ?_⟩
    have hP : (0 : ℝ) <
        (creatinine / 0.9) ^ (if creatinine ≤ 0.9 then (-0.411 : ℝ) else -1.209) :=
      rpow_pos_of_pos (by positivity) _
    exact mul_pos (mul_pos (mul_pos (by norm_num) hP) hQ) hrf
  · refine ⟨_, calculate_egfr_female_pos creatinine age "female" race hc lower_female, ?_⟩
    have hP : (0 : ℝ) <
        (creatinine / 0.7) ^ (if creatinine ≤ 0.7 then (-0.329 : ℝ) else -1.209) :=
      rpow_pos_of_pos (by positivity) _
    exact mul_pos (mul_pos (mul_pos (by norm_num) hP) hQ) hrf

/-- Witness for C3 at (1.45, 45, "male", "non-african-american"). -/
theorem egfr_positive_witness :
    ∃ x : ℝ, calculate_egfr 1.45 45 "male" "non-african-american" = .ok (x : ℂ) ∧ 0 < x :=
  egfr_positive 1.45 45 "male" "non-african-american" (by norm_num) (by norm_num)
    (Or.inl rfl) (Or.inr rfl)

/-- C4: the alpha branch is selected by `creatinine ≤ k` with the boundary
in the ≤ branch: for male sex, creatinine exactly 0.9 computes with alpha
= −0.411 and any creatinine strictly greater than 0.9 computes with alpha
= −1.209; symmetrically for female sex at k = 0.7 with alpha = −0.329
versus −1.209. -/
theorem egfr_alpha_threshold :
    (∀ (age : ℝ) (sex race : String), lower sex = "male" →
      calculate_egfr 0.9 age sex race =
        .ok (((141 * ((0.9 : ℝ) / 0.9) ^ (-0.411 : ℝ) * (0.993 : ℝ) ^ age *
          (if lower race = "african-american" then (1.159 : ℝ) else 1.0) : ℝ) : ℂ))) ∧
    (∀ (creatinine age : ℝ) (sex race : String), lower sex = "male" → 0.9 < creatinine →
      calculate_egfr creatinine age sex race =
        .ok (((141 * (creatinine / 0.9) ^ (-1.209 : ℝ) * (0.993 : ℝ) ^ age *
          (if lower race = "african-american" then (1.159 : ℝ) else 1.0) : ℝ) : ℂ))) ∧
    (∀ (age : ℝ) (sex race : String), lower sex = "female" →
      calculate_egfr 0.7 age sex race =
        .ok (((144 * ((0.7 : ℝ) / 0.7) ^ (-0.329 : ℝ) * (0.993 : ℝ) ^ age *
          (if lower race = "african-american" then (1.159 : ℝ) else 1.0) : ℝ) : ℂ))) ∧
    (∀ (creatinine age : ℝ) (sex race : String), lower sex = "female" → 0.7 < creatinine →
      calculate_egfr creatinine age sex race =
        .ok (((144 * (creatinine / 0.7) ^ (-1.209 : ℝ) * (0.993 : ℝ) ^ age *
          (if lower race = "african-american" then (1.159 : ℝ) else 1.0) : ℝ) : ℂ))) := by
  refine ⟨fun age sex race h => ?_, fun creatinine age sex race h hc => ?_,
    fun age sex race h => ?_, fun creatinine age sex race h hc => ?_⟩
  · rw [calculate_egfr_male_pos 0.9 age sex race (by norm_num) h, if_pos le_rfl]
  · rw [calculate_egfr_male_pos creatinine age sex race
      (lt_trans (by norm_num) hc) h, if_neg (not_le.mpr hc)]
  · rw [calculate_egfr_female_pos 0.7 age sex race (by norm_num) h, if_pos le_rfl]
  · rw [calculate_egfr_female_pos creatinine age sex race
      (lt_trans (by norm_num) hc) h, if_neg (not_le.mpr hc)]

/-- Witness for C4 at the boundary inputs 0.9 and 0.9000001 (male) and
0.7 and 0.7000001 (female). -/
theorem egfr_alpha_threshold_witness :
    calculate_egfr 0.9 45 "male" "non-african-american" =
      .ok (((141 * ((0.9 : ℝ) / 0.9) ^ (-0.411 : ℝ) * (0.993 : ℝ) ^ (45 : ℝ) *
        (if lower "non-african-american" = "african-american" then (1.159 : ℝ) else 1.0) :
          ℝ) : ℂ)) ∧
    calculate_egfr 0.9000001 45 "male" "non-african-american" =
      .ok (((141 * ((0.9000001 : ℝ) / 0.9) ^ (-1.209 : ℝ) * (0.993 : ℝ) ^ (45 : ℝ) *
        (if lower "non-african-american" = "african-american" then (1.159 : ℝ) else 1.0) :
          ℝ) : ℂ)) ∧
    calculate_egfr 0.7 45 "female" "non-african-american" =
      .ok (((144 * ((0.7 : ℝ) / 0.7) ^ (-0.329 : ℝ) * (0.993 : ℝ) ^ (45 : ℝ) *
        (if lower "non-african-american" = "african-american" then (1.159 : ℝ) else 1.0) :
          ℝ) : ℂ)) ∧
    calculate_egfr 0.7000001 45 "female" "non-african-american" =
      .ok (((144 * ((0.7000001 : ℝ) / 0.7) ^ (-1.209 : ℝ) * (0.993 : ℝ) ^ (45 : ℝ) *
        (if lower "non-african-american" = "african-american" then (1.159 : ℝ) else 1.0) :
          ℝ) : ℂ)) :=
  ⟨egfr_alpha_threshold.1 45 "male" "non-african-american" (by decide),
   egfr_alpha_threshold.2.1 0.9000001 45 "male" "non-african-american" (by decide)
     (by norm_num),
   egfr_alpha_threshold.2.2.1 45 "female" "non-african-american" (by decide),
   egfr_alpha_threshold.2.2.2 0.7000001 45 "female" "non-african-american" (by decide)
     (by norm_num)⟩

/-- C7: the stage band table is the fixed constant table with exactly 6
bands, thresholds 0, 15, 30, 45, 60, 90, 120 strictly increasing,
contiguous (each band's upper bound is the next band's lower bound),
covering [0, 120], paired in order from Stage 5 to Stage 1 with the
colors darkred, red, orange, yellow, lime, green, with label count =
color count = band count = 6. -/
theorem stage_band_table :
    stage_bands =
      [("Stage 5: Kidney Failure", 0, 15, "darkred"),
       ("Stage 4: Severe Reduction", 15, 30, "red"),
       ("Stage 3b: Moderate-to-Severe Reduction", 30, 45, "orange"),
       ("Stage 3a: Mild-to-Moderate Reduction", 45, 60, "yellow"),
       ("Stage 2: Mild Reduction", 60, 90, "lime"),
       ("Stage 1: Normal or High Function", 90, 120, "green")] ∧
    stage_bands.length = 6 ∧ stages.length = 6 ∧ colors.length = 6 ∧
    thresholds = [0, 15, 30, 45, 60, 90, 120] ∧
    List.Chain' (fun a b => a < b) thresholds ∧
    List.Chain' (fun b1 b2 => b1.2.2.1 = b2.2.1) stage_bands ∧
    (∀ b ∈ stage_bands, b.2.1 < b.2.2.1) ∧
    (stage_bands.map fun b => b.2.1).head? = some 0 ∧
    (stage_bands.map fun b => b.2.2.1).getLast? = some 120 := by
  have htable : stage_bands =
      [("Stage 5: Kidney Failure", 0, 15, "darkred"),
       ("Stage 4: Severe Reduction", 15, 30, "red"),
       ("Stage 3b: Moderate-to-Severe Reduction", 30, 45, "orange"),
       ("Stage 3a: Mild-to-Moderate Reduction", 45, 60, "yellow"),
       ("Stage 2: Mild Reduction", 60, 90, "lime"),
       ("Stage 1: Normal or High Function", 90, 120, "green")] := by rfl
  refine ⟨htable, by decide, by decide, by decide, by decide,
    by simp [thresholds, List.chain'_cons], ?_, ?_, ?_, ?_⟩
  · rw [htable]; simp [List.chain'_cons]
  · rw [htable]; decide
  · rw [htable]; decide
  · rw [htable]; decide

/-- C8: for every (sex, creatinine, race) triple, the four formula
constants (k, coeff, alpha, race_factor) computed inside the renderer are
identical to those computed inside `calculate_egfr` — and in particular
both computations reject exactly the same sex strings. -/
theorem renderer_egfr_constants_agree (creatinine : ℝ) (sex race : String) :
    renderer_constants creatinine sex race = egfr_constants creatinine sex race := rfl

/-- C2 counterexample: with the valid sex "female" and creatinine 0 the
estimator does raise — a `ZeroDivisionError` from `0.0 ** -0.329` at
line 26 — contradicting the claim that only an invalid sex causes an
error and that non-positive creatinine never does. -/
theorem error_iff_invalid_sex_counterexample :
    lower "female" = "female" ∧
    calculate_egfr 0 30 "female" "african-american" =
      .error PyErr.zeroDivisionError :=
  ⟨by decide, calculate_egfr_zero 30 "female" "african-american" (Or.inr (by decide))⟩

/-- C2 (amended): `calculate_egfr` raises `ValueError` exactly when sex
is (case-insensitively) neither "male" nor "female"; it additionally
raises `ZeroDivisionError` exactly when sex is valid and creatinine = 0
(`0.0 ** negative` at line 26); every other input succeeds — negative
creatinine, negative age and unrecognized race strings do not error, and
an unrecognized race silently uses race_factor 1.0.  The renderer, which
computes no powers, fails exactly when sex is invalid. -/
theorem egfr_error_classification (egfr creatinine age : ℝ) (sex race : String) :
    (calculate_egfr creatinine age sex race = .error PyErr.valueError ↔
      ¬(lower sex = "male" ∨ lower sex = "female")) ∧
    (calculate_egfr creatinine age sex race = .error PyErr.zeroDivisionError ↔
      ((lower sex = "male" ∨ lower sex = "female") ∧ creatinine = 0)) ∧
    ((∃ z : ℂ, calculate_egfr creatinine age sex race = .ok z) ↔
      ((lower sex = "male" ∨ lower sex = "female") ∧ creatinine ≠ 0)) ∧
    ((plot_kidney_disease_stages_with_correct_format egfr creatinine age sex race).2
        = false ↔
      ¬(lower sex = "male" ∨ lower sex = "female")) ∧
    (lower race ≠ "african-american" →
      ∀ t ∈ egfr_constants creatinine sex race, t.2.2.2 = 1.0) := by
  by_cases hv : lower sex = "male" ∨ lower sex = "female"
  · have hplot := plot_valid_sex egfr creatinine age sex race hv
    by_cases hc : creatinine = 0
    · subst hc
      have hz := calculate_egfr_zero age sex race hv
      refine ⟨⟨fun he => ?_, fun hn => absurd hv hn⟩,
        ⟨fun _ => ⟨hv, rfl⟩, fun _ => hz⟩,
        ⟨fun hok => ?_, fun hpair => absurd rfl hpair.2⟩,
        ⟨fun hf => ?_, fun hn => absurd hv hn⟩,
        fun hr => egfr_constants_race_fallback 0 sex race hr⟩
      · rw [hz] at he; simp at he
      · obtain ⟨z, hzz⟩ := hok
        rw [hz] at hzz; simp at hzz
      · rw [hplot] at hf; simp at hf
    · obtain ⟨z0, hok⟩ := calculate_egfr_ok_of_ne_zero creatinine age sex race hv hc
      refine ⟨⟨fun he => ?_, fun hn => absurd hv hn⟩,
        ⟨fun he => ?_, fun hpair => absurd hpair.2 hc⟩,
        ⟨fun _ => ⟨hv, hc⟩, fun _ => ⟨z0, hok⟩⟩,
        ⟨fun hf => ?_, fun hn => absurd hv hn⟩,
        fun hr => egfr_constants_race_fallback creatinine sex race hr⟩
      · rw [hok] at he; simp at he
      · rw [hok] at he; simp at he
      · rw [hplot] at hf; simp at hf
  · have h12 := not_or.mp hv
    have hinv := calculate_egfr_invalid creatinine age sex race h12.1 h12.2
    have hpf := plot_invalid_sex egfr creatinine age sex race h12.1 h12.2
    refine ⟨⟨fun _ => hv, fun _ => hinv⟩,
      ⟨fun he => ?_, fun hpair => absurd hpair.1 hv⟩,
      ⟨fun hok => ?_, fun hpair => absurd hpair.1 hv⟩,
      ⟨fun _ => hv, fun _ => by rw [hpf]⟩,
      fun hr => egfr_constants_race_fallback creatinine sex race hr⟩
    · rw [hinv] at he; simp at he
    · obtain ⟨z, hzz⟩ := hok
      rw [hinv] at hzz; simp at hzz

/-- Witness for C2: concrete instances of all five parts — `ValueError`
at sex "other", `ZeroDivisionError` at creatinine 0 with sex "MALE", a
successful run, the renderer failing on "other", and the unrecognized
race "martian" yielding race_factor 1.0. -/
theorem egfr_error_classification_witness :
    calculate_egfr 1.45 45 "other" "non-african-american" = .error PyErr.valueError ∧
    calculate_egfr 0 45 "MALE" "non-african-american" =
      .error PyErr.zeroDivisionError ∧
    (∃ z : ℂ, calculate_egfr 1.45 45 "male" "non-african-american" = .ok z) ∧
    (plot_kidney_disease_stages_with_correct_format 56.76 1.45 45 "other"
        "non-african-american").2 = false ∧
    (∀ t ∈ egfr_constants 1.45 "male" "martian", t.2.2.2 = 1.0) :=
  ⟨(egfr_error_classification 56.76 1.45 45 "other" "non-african-american").1.mpr
     (by decide),
   (egfr_error_classification 56.76 0 45 "MALE" "non-african-american").2.1.mpr
     ⟨Or.inl (by decide), rfl⟩,
   (egfr_error_classification 56.76 1.45 45 "male" "non-african-american").2.2.1.mpr
     ⟨Or.inl (by decide), by norm_num⟩,
   (egfr_error_classification 56.76 1.45 45 "other" "non-african-american").2.2.2.1.mpr
     (by decide),
   (egfr_error_classification 56.76 1.45 45 "male" "martian").2.2.2.2 (by decide)⟩

/-- C9 counterexample: called with the invalid sex "other", the renderer
fails, yet the list of drawing commands already issued to the global
canvas is nonempty — the bands, marker and annotation were drawn before
the error, contradicting the claim that no partial drawing state is left. -/
theorem renderer_atomicity_counterexample :
    (plot_kidney_disease_stages_with_correct_format 56.76 1.45 45 "other"
        "non-african-american").2 = false ∧
    (plot_kidney_disease_stages_with_correct_format 56.76 1.45 45 "other"
        "non-african-american").1 ≠ [] := by
  have h1 : lower "other" ≠ "male" := by decide
  have h2 : lower "other" ≠ "female" := by decide
  rw [plot_invalid_sex 56.76 1.45 45 "other" "non-african-american" h1 h2]
  refine ⟨rfl, ?_⟩
  have hb : stage_bands ≠ [] := by decide
  simp [hb]

/-- C9 amended: `calculate_egfr` is atomic (on an invalid sex it raises
`ValueError` and returns no partial result), but the renderer is not: on
an invalid sex it raises only after the six bands, the vertical marker
and the annotation have been emitted, and that partial drawing state
remains on the global canvas. -/
theorem renderer_invalid_sex_partial_state (egfr creatinine age : ℝ) (sex race : String)
    (h1 : lower sex ≠ "male") (h2 : lower sex ≠ "female") :
    calculate_egfr creatinine age sex race = .error PyErr.valueError ∧
    plot_kidney_disease_stages_with_correct_format egfr creatinine age sex race =
      ((stage_bands.map fun b =>
          PlotCmd.barh b.1 (b.2.2.1 - b.2.1) b.2.1 b.2.2.2 "black" 0.7) ++
        [PlotCmd.axvline egfr "blue" "--",
         PlotCmd.text (egfr + 1) ((stages.length : ℝ) - 1) egfr "blue" 10],
       false) :=
  ⟨calculate_egfr_invalid creatinine age sex race h1 h2,
   plot_invalid_sex egfr creatinine age sex race h1 h2⟩

/-- Witness for the amended C9 at sex "unknown". -/
theorem renderer_invalid_sex_partial_state_witness :
    calculate_egfr 1.0 30 "unknown" "non-african-american" =
      .error PyErr.valueError ∧
    plot_kidney_disease_stages_with_correct_format 75 1.0 30 "unknown"
        "non-african-american" =
      ((stage_bands.map fun b =>
          PlotCmd.barh b.1 (b.2.2.1 - b.2.1) b.2.1 b.2.2.2 "black" 0.7) ++
        [PlotCmd.axvline 75 "blue" "--",
         PlotCmd.text (75 + 1) ((stages.length : ℝ) - 1) 75 "blue" 10],
       false) :=
  renderer_invalid_sex_partial_state 75 1.0 30 "unknown" "non-african-american"
    (by decide) (by decide)

/-- The branchy power factor `(c / k) ^ (if c ≤ k then a1 else -1.209)` is
strictly decreasing in `c` on positives, including across the branch
switch at `c = k`, whenever `k > 0` and `a1 < 0`. -/
lemma rpow_branch_strict_anti (k a1 c1 c2 : ℝ) (hk : 0 < k) (ha1 : a1 < 0)
    (h0 : 0 < c1) (h12 : c1 < c2) :
    (c2 / k) ^ (if c2 ≤ k then a1 else (-1.209 : ℝ)) <
      (c1 / k) ^ (if c1 ≤ k then a1 else (-1.209 : ℝ)) := by
  by_cases h2 : c2 ≤ k
  · rw [if_pos h2, if_pos (h12.le.trans h2)]
    exact rpow_lt_rpow_of_neg (div_pos h0 hk) ((div_lt_div_iff_of_pos_right hk).mpr h12) ha1
  · rw [if_neg h2]
    by_cases h1 : c1 ≤ k
    · rw [if_pos h1]
      have hlt : (c2 / k) ^ (-1.209 : ℝ) < 1 :=
        rpow_lt_one_of_one_lt_of_neg ((one_lt_div hk).mpr (not_le.mp h2)) (by norm_num)
      have hge : 1 ≤ (c1 / k) ^ a1 :=
        one_le_rpow_of_pos_of_le_one_of_nonpos (div_pos h0 hk)
          ((div_le_one hk).mpr h1) ha1.le
      exact hlt.trans_le hge
    · rw [if_neg h1]
      exact rpow_lt_rpow_of_neg (div_pos h0 hk) ((div_lt_div_iff_of_pos_right hk).mpr h12)
        (by norm_num)

/-- C10: for every fixed age, valid sex and race, `calculate_egfr` is
strictly decreasing in creatinine over all positive creatinine, including
across the alpha branch switch at creatinine = k. -/
theorem egfr_strict_anti_in_creatinine (c1 c2 age : ℝ) (sex race : String)
    (hsex : lower sex = "male" ∨ lower sex = "female")
    (h0 : 0 < c1) (h12 : c1 < c2) :
    ∃ y1 y2 : ℝ, calculate_egfr c1 age sex race = .ok (y1 : ℂ) ∧
      calculate_egfr c2 age sex race = .ok (y2 : ℂ) ∧ y2 < y1 := by
  have hQ : (0 : ℝ) < (0.993 : ℝ) ^ age := rpow_pos_of_pos (by norm_num) age
  have hR : (0 : ℝ) < (if lower race = "african-american" then (1.159 : ℝ) else 1.0) := by
    split_ifs <;> norm_num
  rcases hsex with h | h
  · refine ⟨_, _, calculate_egfr_male_pos c1 age sex race h0 h,
      calculate_egfr_male_pos c2 age sex race (h0.trans h12) h, ?_⟩
    have hP := rpow_branch_strict_anti 0.9 (-0.411) c1 c2 (by norm_num) (by norm_num) h0 h12
    exact mul_lt_mul_of_pos_right
      (mul_lt_mul_of_pos_right (mul_lt_mul_of_pos_left hP (by norm_num)) hQ) hR
  · refine ⟨_, _, calculate_egfr_female_pos c1 age sex race h0 h,
      calculate_egfr_female_pos c2 age sex race (h0.trans h12) h, ?_⟩
    have hP := rpow_branch_strict_anti 0.7 (-0.329) c1 c2 (by norm_num) (by norm_num) h0 h12
    exact mul_lt_mul_of_pos_right
      (mul_lt_mul_of_pos_right (mul_lt_mul_of_pos_left hP (by norm_num)) hQ) hR

/-- Witness for C10: for male sex, creatinine 0.8 (below k) versus 1.8
(above k), at age 45. -/
theorem egfr_strict_anti_in_creatinine_witness :
    ∃ y1 y2 : ℝ, calculate_egfr 0.8 45 "male" "non-african-american" = .ok (y1 : ℂ) ∧
      calculate_egfr 1.8 45 "male" "non-african-american" = .ok (y2 : ℂ) ∧ y2 < y1 :=
  egfr_strict_anti_in_creatinine 0.8 1.8 45 "male" "non-african-american"
    (Or.inl (by decide)) (by norm_num) (by norm_num)

end EGRF
